import Mathlib

/-!
Verification development for `src/core/src/stages/generate_grasp_pose.cpp`
(the `GenerateGraspPose` stage of the moveit task constructor repository).

The stage samples candidate grasp poses by rotating an object pose about its
z-axis in steps of `angle_delta`, starting from `current_angle_ = 0`, and
stopping once the accumulated angle leaves the open interval `(-2π, 2π)`.

Shallow embedding conventions:
* Angles (C++ `double`) are modelled as real numbers `ℝ`, with `M_PI` as
  `Real.pi`; this is the idealised real-arithmetic reading of the code.
* `Eigen::Affine3d` is modelled as a linear part (a 3×3 real matrix) plus a
  translation vector, with Eigen's composition (`*`) and `.inverse()`
  (matrix inverse of the linear part, as Eigen computes for affine mode).
* The host framework collaborators (planning scene frame resolution, robot
  model/state, marker generation) are an explicit environment record `Env`,
  polymorphic in the scratch robot-state representation `R`; the planning
  scene's `getFrameTransform` is `Env.resolve`, returning the identity
  transform as its not-found sentinel, exactly as the stage treats it.
* A C++ `throw` is an `Except.error`; the member state (`current_angle_`
  and the scratch robot state of the diff scene) as it stands when the
  function exits is always returned alongside the result.
* `std::to_string(current_angle_)` for the trajectory name is abstracted to
  the real number being stringified.
-/

open Classical

/-- Model of `Eigen::Affine3d`: linear part plus translation. -/
structure Affine3d where
  lin : Matrix (Fin 3) (Fin 3) ℝ
  tr : Fin 3 → ℝ

namespace Affine3d

/-- Composition of affine transforms, Eigen's `operator*`. -/
instance : Mul Affine3d :=
  ⟨fun a b => ⟨a.lin * b.lin, a.lin.mulVec b.tr + a.tr⟩⟩

/-- The identity transform `Eigen::Affine3d::Identity()`. -/
instance : One Affine3d := ⟨⟨1, 0⟩⟩

/-- Eigen's `.inverse()` in affine mode: invert the linear part, transform
the negated translation. -/
noncomputable instance : Inv Affine3d :=
  ⟨fun a => ⟨a.lin⁻¹, -(a.lin⁻¹.mulVec a.tr)⟩⟩

@[simp] theorem mul_lin (a b : Affine3d) : (a * b).lin = a.lin * b.lin := rfl

@[simp] theorem mul_tr (a b : Affine3d) :
    (a * b).tr = a.lin.mulVec b.tr + a.tr := rfl

@[simp] theorem one_lin : (1 : Affine3d).lin = 1 := rfl

@[simp] theorem one_tr : (1 : Affine3d).tr = 0 := rfl

@[simp] theorem inv_lin (a : Affine3d) : (a⁻¹).lin = a.lin⁻¹ := rfl

@[simp] theorem inv_tr (a : Affine3d) :
    (a⁻¹).tr = -(a.lin⁻¹.mulVec a.tr) := rfl

theorem ext_iff {a b : Affine3d} : a = b ↔ a.lin = b.lin ∧ a.tr = b.tr := by
  constructor
  · rintro rfl; exact ⟨rfl, rfl⟩
  · rcases a with ⟨al, at'⟩
    rcases b with ⟨bl, bt⟩
    rintro ⟨h1, h2⟩
    simp_all

instance : Monoid Affine3d where
  mul_assoc a b c := by
    rw [ext_iff]
    constructor
    · simp [mul_assoc]
    · simp [Matrix.mulVec_add, Matrix.mulVec_mulVec, add_assoc]
  one_mul a := by
    rw [ext_iff]
    constructor
    · simp
    · simp [Matrix.one_mulVec]
  mul_one a := by
    rw [ext_iff]
    constructor
    · simp
    · simp [Matrix.mulVec_zero]

/-- If the linear part is nonsingular, Eigen's affine inverse is a left
inverse. -/
theorem inv_mul_self {a : Affine3d} (h : IsUnit a.lin.det) :
    a⁻¹ * a = 1 := by
  rw [ext_iff]
  constructor
  · simp [Matrix.nonsing_inv_mul _ h]
  · simp

@[simp] theorem inv_one : (1 : Affine3d)⁻¹ = 1 := by
  rw [ext_iff]
  constructor
  · simp
  · simp [Matrix.mulVec_zero]

/-- A pure translation transform. -/
def transl (v : Fin 3 → ℝ) : Affine3d := ⟨1, v⟩

@[simp] theorem transl_lin (v : Fin 3 → ℝ) : (transl v).lin = 1 := rfl

@[simp] theorem transl_tr (v : Fin 3 → ℝ) : (transl v).tr = v := rfl

@[simp] theorem transl_mul (u v : Fin 3 → ℝ) :
    transl u * transl v = transl (v + u) := by
  rw [ext_iff]
  constructor
  · simp [transl]
  · simp [transl, Matrix.one_mulVec]

@[simp] theorem transl_inv (v : Fin 3 → ℝ) : (transl v)⁻¹ = transl (-v) := by
  rw [ext_iff]
  constructor
  · simp [transl]
  · simp [transl, Matrix.one_mulVec]

theorem transl_injective : Function.Injective transl := by
  intro u v h
  have := (ext_iff.mp h).2
  simpa using this

@[simp] theorem transl_eq_one_iff (v : Fin 3 → ℝ) : transl v = 1 ↔ v = 0 := by
  constructor
  · intro h
    exact (ext_iff.mp h).2
  · rintro rfl; rfl

@[simp] theorem transl_eq_transl_iff (u v : Fin 3 → ℝ) :
    transl u = transl v ↔ u = v :=
  ⟨fun h => transl_injective h, fun h => by rw [h]⟩

/-- Rotation matrix about the z-axis,
`Eigen::AngleAxisd(a, Eigen::Vector3d::UnitZ())`. -/
noncomputable def rotMZ (a : ℝ) : Matrix (Fin 3) (Fin 3) ℝ :=
  !![Real.cos a, -Real.sin a, 0;
     Real.sin a, Real.cos a, 0;
     0, 0, 1]

/-- Rotation about the z-axis as an affine transform. -/
noncomputable def rotZ (a : ℝ) : Affine3d := ⟨rotMZ a, 0⟩

@[simp] theorem rotZ_zero : rotZ 0 = 1 := by
  rw [ext_iff]
  constructor
  · show rotMZ 0 = 1
    rw [rotMZ, Matrix.one_fin_three]
    norm_num
  · rfl

/-- Rotation matrix about the y-axis,
`Eigen::AngleAxisd(a, Eigen::Vector3d::UnitY())`. -/
noncomputable def rotMY (a : ℝ) : Matrix (Fin 3) (Fin 3) ℝ :=
  !![Real.cos a, 0, Real.sin a;
     0, 1, 0;
     -Real.sin a, 0, Real.cos a]

/-- Rotation about the y-axis as an affine transform. -/
noncomputable def rotY (a : ℝ) : Affine3d := ⟨rotMY a, 0⟩

end Affine3d

namespace GenerateGraspPose

open Affine3d

/-- Stage configuration: the properties declared in the constructor
(lines 52-57) as read by `compute`.  `tfFrameId`/`toolToGrasp` are the
`header.frame_id` and `transform` parts of the `tool_to_grasp_tf`
`geometry_msgs::TransformStamped` property (the transform already converted
by `tf::transformMsgToEigen`). -/
structure Config where
  eef : String
  eefNamedPose : String
  object : String
  tfFrameId : String
  toolToGrasp : Affine3d
  angleDelta : ℝ

/-- Host-framework collaborators used by `compute`, polymorphic in the
scratch robot-state representation `R` of the diff planning scene:
`resolve` is `PlanningScene::getFrameTransform` (identity = not found),
`eefParentLink` is `jmg->getEndEffectorParentGroup().second`,
`hasEndEffector` is `RobotModel::hasEndEffector`, `setNamedPose` is
`RobotState::setToDefaultValues(jmg, name)`, `updateWithLinkAt` is
`RobotState::updateStateWithLinkAt`, and `eefMarkers` abstracts
`generateVisualMarkers` (the posed markers produced from a robot state). -/
structure Env (R : Type) where
  hasEndEffector : String → Bool
  eefParentLink : String → String
  resolve : String → Affine3d
  setNamedPose : R → String → String → R
  updateWithLinkAt : R → String → Affine3d → R
  eefMarkers : R → List Affine3d

/-- The stage's mutable state: the sampling cursor `current_angle_` and the
scratch robot state held in the diff scene `scene_`. -/
structure GenState (R : Type) where
  currentAngle : ℝ
  robotState : R

/-- `geometry_msgs::PoseStamped` (lines 144-146). -/
structure PoseStamped where
  frameId : String
  pose : Affine3d

/-- The part of the emitted `InterfaceState` this stage fills in: the
`target_pose` property (line 147). -/
structure InterfaceState where
  targetPose : PoseStamped

/-- The emitted `SubTrajectory` stub: cost, name (the real number that
`std::to_string` renders, line 151), and marker poses. -/
structure SubTrajectory where
  cost : ℝ
  name : ℝ
  markers : List Affine3d

/-- One `spawn`ed (interface-state, trajectory) pair (line 176). -/
structure Emission where
  state : InterfaceState
  traj : SubTrajectory

/-- `GenerateGraspPose::canCompute` (lines 94-96):
`current_angle_ < 2*M_PI && current_angle_ > -2*M_PI`. -/
def canCompute (a : ℝ) : Prop :=
  a < 2 * Real.pi ∧ a > -(2 * Real.pi)

/-- The effective reference frame of the configured offset (lines 113-114):
an empty `frame_id` defaults to the end-effector parent-link frame. -/
def effFrameId (cfg : Config) (linkName : String) : String :=
  if cfg.tfFrameId = "" then linkName else cfg.tfFrameId

/-- The scratch robot state after the optional named-pose preset
(lines 106-109). -/
def rsAfterPreset {R : Type} (cfg : Config) (env : Env R) (r : R) : R :=
  if cfg.eefNamedPose = "" then r
  else env.setNamedPose r cfg.eef cfg.eefNamedPose

/-- `grasp2tool` (lines 117-118): inverse of the configured offset, taken
before any re-expression. -/
noncomputable def grasp2tool (cfg : Config) : Affine3d :=
  cfg.toolToGrasp⁻¹

/-- Lines 113-131: derive `grasp2link` from the configured offset, throwing
when a frame that must be resolved comes back as the identity sentinel. -/
noncomputable def resolveGrasp2Link {R : Type} (cfg : Config) (env : Env R)
    (linkName : String) : Except String Affine3d :=
  if effFrameId cfg linkName ≠ linkName then
    if env.resolve linkName = 1 then
      Except.error "requested link does not exist or could not be retrieved"
    else if env.resolve (effFrameId cfg linkName) = 1 then
      Except.error "requested frame does not exist or could not be retrieved"
    else
      Except.ok ((env.resolve linkName)⁻¹ * env.resolve (effFrameId cfg linkName)
        * cfg.toolToGrasp)⁻¹
  else Except.ok cfg.toolToGrasp⁻¹

/-- The `grasp2link` value on the success path of lines 113-131. -/
noncomputable def graspToLink {R : Type} (cfg : Config) (env : Env R) : Affine3d :=
  if effFrameId cfg (env.eefParentLink cfg.eef) ≠ env.eefParentLink cfg.eef then
    ((env.resolve (env.eefParentLink cfg.eef))⁻¹
      * env.resolve (effFrameId cfg (env.eefParentLink cfg.eef))
      * cfg.toolToGrasp)⁻¹
  else cfg.toolToGrasp⁻¹

/-- The fixed pose adjustment applied to the arrow marker (lines 160-164):
point along z instead of x, tip at the goal pose (`scale = 0.1`). -/
noncomputable def arrowAdjust : Affine3d :=
  rotY (-(Real.pi / 2)) * transl ![-(1 / 10 : ℝ), 0, 0]

/-- The loop body's emission (lines 139-176): target pose from the
pre-increment angle, trajectory name from the post-increment angle, arrow
marker followed by the end-effector markers generated from the updated
scratch robot state. -/
noncomputable def emissionOf {R : Type} (cfg : Config) (env : Env R)
    (s : GenState R) : Emission :=
  ⟨⟨⟨env.eefParentLink cfg.eef,
     env.resolve cfg.object * rotZ s.currentAngle * graspToLink cfg env⟩⟩,
   ⟨0, s.currentAngle + cfg.angleDelta,
    (env.resolve cfg.object * rotZ s.currentAngle * grasp2tool cfg * arrowAdjust) ::
      env.eefMarkers (env.updateWithLinkAt (rsAfterPreset cfg env s.robotState)
        (env.eefParentLink cfg.eef)
        (env.resolve cfg.object * rotZ s.currentAngle * graspToLink cfg env))⟩⟩

/-- `GenerateGraspPose::compute` (lines 98-181).  Returns the member state
as it stands when the function exits together with either the thrown error
or the boolean result and the list of `spawn`ed emissions.  The `while`
loop of the source returns inside its first iteration, so it is rendered as
the conditional on `canCompute`; the loop body (lines 139-176) is
`emissionOf`, with the matched `grasp2link` equal to `graspToLink` on the
`Except.ok` path. -/
noncomputable def compute {R : Type} (cfg : Config) (env : Env R)
    (s : GenState R) : GenState R × Except String (Bool × List Emission) :=
  if env.hasEndEffector cfg.eef = true then
    match resolveGrasp2Link cfg env (env.eefParentLink cfg.eef) with
    | Except.error e =>
        (⟨s.currentAngle, rsAfterPreset cfg env s.robotState⟩, Except.error e)
    | Except.ok grasp2link =>
        if env.resolve cfg.object = 1 then
          (⟨s.currentAngle, rsAfterPreset cfg env s.robotState⟩,
           Except.error "requested object does not exist or could not be retrieved")
        else if canCompute s.currentAngle then
          (⟨s.currentAngle + cfg.angleDelta,
            env.updateWithLinkAt (rsAfterPreset cfg env s.robotState)
              (env.eefParentLink cfg.eef)
              (env.resolve cfg.object * rotZ s.currentAngle * grasp2link)⟩,
           Except.ok (true, [emissionOf cfg env s]))
        else
          (⟨s.currentAngle, rsAfterPreset cfg env s.robotState⟩,
           Except.ok (false, []))
  else
    (s, Except.error "the specified end effector is not defined in the srdf")

/-- The stage state after `n` consecutive `compute` calls. -/
noncomputable def computeSteps {R : Type} (cfg : Config) (env : Env R) :
    ℕ → GenState R → GenState R
  | 0, s => s
  | n + 1, s => (compute cfg env (computeSteps cfg env n s)).1

/-- The boolean returned by a `compute` call (`false` when it threw). -/
def produced {R : Type}
    (r : GenState R × Except String (Bool × List Emission)) : Bool :=
  match r.2 with
  | Except.ok (b, _) => b
  | Except.error _ => false

/-- The emissions `spawn`ed by a `compute` call. -/
def emitted {R : Type}
    (r : GenState R × Except String (Bool × List Emission)) : List Emission :=
  match r.2 with
  | Except.ok (_, l) => l
  | Except.error _ => []

/-- Whether a `compute` call threw. -/
def isError {R : Type}
    (r : GenState R × Except String (Bool × List Emission)) : Bool :=
  match r.2 with
  | Except.ok _ => false
  | Except.error _ => true

/-- All resolutions `compute` performs succeed: the end effector exists,
the frames resolved on the taken branch of lines 120-131 are found, and the
object is found. -/
def resolvesOk {R : Type} (cfg : Config) (env : Env R) : Prop :=
  env.hasEndEffector cfg.eef = true ∧
  (effFrameId cfg (env.eefParentLink cfg.eef) ≠ env.eefParentLink cfg.eef →
    env.resolve (env.eefParentLink cfg.eef) ≠ 1 ∧
    env.resolve (effFrameId cfg (env.eefParentLink cfg.eef)) ≠ 1) ∧
  env.resolve cfg.object ≠ 1

/-- Some resolution `compute` performs fails with the identity sentinel:
a frame on the taken re-expression branch, or the object. -/
def resolveFails {R : Type} (cfg : Config) (env : Env R) : Prop :=
  (effFrameId cfg (env.eefParentLink cfg.eef) ≠ env.eefParentLink cfg.eef ∧
    (env.resolve (env.eefParentLink cfg.eef) = 1 ∨
     env.resolve (effFrameId cfg (env.eefParentLink cfg.eef)) = 1)) ∨
  env.resolve cfg.object = 1

end GenerateGraspPose

namespace GenerateGraspPose

open Affine3d

theorem canCompute_zero : canCompute 0 :=
  ⟨Real.two_pi_pos, by linarith [Real.two_pi_pos]⟩

theorem canCompute_of_nonneg_lt {a : ℝ} (h0 : 0 ≤ a) (h : a < 2 * Real.pi) :
    canCompute a :=
  ⟨h, by linarith [Real.two_pi_pos]⟩

theorem not_canCompute_of_le {a : ℝ} (h : 2 * Real.pi ≤ a) : ¬ canCompute a :=
  fun hc => absurd hc.1 (not_lt.mpr h)

theorem resolveGrasp2Link_ok {R : Type} (cfg : Config) (env : Env R)
    (h : effFrameId cfg (env.eefParentLink cfg.eef) ≠ env.eefParentLink cfg.eef →
      env.resolve (env.eefParentLink cfg.eef) ≠ 1 ∧
      env.resolve (effFrameId cfg (env.eefParentLink cfg.eef)) ≠ 1) :
    resolveGrasp2Link cfg env (env.eefParentLink cfg.eef) =
      Except.ok (graspToLink cfg env) := by
  by_cases hf : effFrameId cfg (env.eefParentLink cfg.eef) ≠ env.eefParentLink cfg.eef
  · obtain ⟨hL, hF⟩ := h hf
    unfold resolveGrasp2Link graspToLink
    rw [if_pos hf, if_neg hL, if_neg hF, if_pos hf]
  · unfold resolveGrasp2Link graspToLink
    rw [if_neg hf, if_neg hf]

theorem resolveGrasp2Link_ok_inv {R : Type} (cfg : Config) (env : Env R)
    {g : Affine3d}
    (h : resolveGrasp2Link cfg env (env.eefParentLink cfg.eef) = Except.ok g) :
    (effFrameId cfg (env.eefParentLink cfg.eef) ≠ env.eefParentLink cfg.eef →
      env.resolve (env.eefParentLink cfg.eef) ≠ 1 ∧
      env.resolve (effFrameId cfg (env.eefParentLink cfg.eef)) ≠ 1) ∧
    g = graspToLink cfg env := by
  unfold resolveGrasp2Link at h
  by_cases hf : effFrameId cfg (env.eefParentLink cfg.eef) ≠ env.eefParentLink cfg.eef
  · rw [if_pos hf] at h
    by_cases hL : env.resolve (env.eefParentLink cfg.eef) = 1
    · rw [if_pos hL] at h
      exact absurd h (by simp)
    · rw [if_neg hL] at h
      by_cases hF : env.resolve (effFrameId cfg (env.eefParentLink cfg.eef)) = 1
      · rw [if_pos hF] at h
        exact absurd h (by simp)
      · rw [if_neg hF] at h
        have hg := Except.ok.inj h
        refine ⟨fun _ => ⟨hL, hF⟩, ?_⟩
        rw [← hg]
        unfold graspToLink
        rw [if_pos hf]
  · rw [if_neg hf] at h
    have hg := Except.ok.inj h
    refine ⟨fun hc => absurd hc hf, ?_⟩
    rw [← hg]
    unfold graspToLink
    rw [if_neg hf]

theorem compute_active_eq {R : Type} (cfg : Config) (env : Env R)
    (s : GenState R) (hok : resolvesOk cfg env)
    (hc : canCompute s.currentAngle) :
    compute cfg env s =
      (⟨s.currentAngle + cfg.angleDelta,
        env.updateWithLinkAt (rsAfterPreset cfg env s.robotState)
          (env.eefParentLink cfg.eef)
          (env.resolve cfg.object * rotZ s.currentAngle * graspToLink cfg env)⟩,
       Except.ok (true, [emissionOf cfg env s])) := by
  obtain ⟨h1, h2, h3⟩ := hok
  unfold compute
  rw [if_pos h1]
  simp only [resolveGrasp2Link_ok cfg env h2]
  rw [if_neg h3, if_pos hc]

theorem compute_exhausted_eq {R : Type} (cfg : Config) (env : Env R)
    (s : GenState R) (hok : resolvesOk cfg env)
    (hnc : ¬ canCompute s.currentAngle) :
    compute cfg env s =
      (⟨s.currentAngle, rsAfterPreset cfg env s.robotState⟩,
       Except.ok (false, [])) := by
  obtain ⟨h1, h2, h3⟩ := hok
  unfold compute
  rw [if_pos h1]
  simp only [resolveGrasp2Link_ok cfg env h2]
  rw [if_neg h3, if_neg hnc]

/-- Case analysis of `compute`: either the call runs the fully successful,
ready path (and the result is the active tuple), or the call leaves the
angle unchanged, reports no candidate and emits nothing. -/
theorem compute_cases {R : Type} (cfg : Config) (env : Env R)
    (s : GenState R) :
    (canCompute s.currentAngle ∧ resolvesOk cfg env ∧
      compute cfg env s =
        (⟨s.currentAngle + cfg.angleDelta,
          env.updateWithLinkAt (rsAfterPreset cfg env s.robotState)
            (env.eefParentLink cfg.eef)
            (env.resolve cfg.object * rotZ s.currentAngle * graspToLink cfg env)⟩,
         Except.ok (true, [emissionOf cfg env s]))) ∨
    ((compute cfg env s).1.currentAngle = s.currentAngle ∧
      produced (compute cfg env s) = false ∧
      emitted (compute cfg env s) = []) := by
  by_cases h1 : env.hasEndEffector cfg.eef = true
  · rcases hres : resolveGrasp2Link cfg env (env.eefParentLink cfg.eef) with e | g
    · right
      unfold compute
      rw [if_pos h1]
      simp only [hres]
      refine ⟨?_, ?_, ?_⟩ <;> simp [produced, emitted]
    · by_cases h2 : env.resolve cfg.object = 1
      · right
        unfold compute
        rw [if_pos h1]
        simp only [hres]
        rw [if_pos h2]
        exact ⟨rfl, rfl, rfl⟩
      · by_cases hc : canCompute s.currentAngle
        · left
          obtain ⟨hcond, hg⟩ := resolveGrasp2Link_ok_inv cfg env hres
          refine ⟨hc, ⟨h1, hcond, h2⟩, ?_⟩
          unfold compute
          rw [if_pos h1]
          simp only [hres]
          rw [if_neg h2, if_pos hc, hg]
        · right
          unfold compute
          rw [if_pos h1]
          simp only [hres]
          rw [if_neg h2, if_neg hc]
          exact ⟨rfl, rfl, rfl⟩
  · right
    unfold compute
    rw [if_neg h1]
    exact ⟨rfl, rfl, rfl⟩

theorem computeSteps_angle {R : Type} (cfg : Config) (env : Env R) (r : R)
    (hok : resolvesOk cfg env) (k : ℕ)
    (h : ∀ j : ℕ, j < k → canCompute ((j : ℝ) * cfg.angleDelta)) :
    (computeSteps cfg env k ⟨0, r⟩).currentAngle = (k : ℝ) * cfg.angleDelta := by
  induction k with
  | zero => simp [computeSteps]
  | succ n ih =>
    have ihn := ih (fun j hj => h j (Nat.lt_succ_of_lt hj))
    have hc : canCompute (computeSteps cfg env n ⟨0, r⟩).currentAngle := by
      rw [ihn]
      exact h n (Nat.lt_succ_self n)
    show (compute cfg env (computeSteps cfg env n ⟨0, r⟩)).1.currentAngle = _
    rw [compute_active_eq cfg env _ hok hc]
    show (computeSteps cfg env n ⟨0, r⟩).currentAngle + cfg.angleDelta = _
    rw [ihn]
    push_cast
    ring

end GenerateGraspPose

namespace GenerateGraspPose

open Affine3d

theorem produced_true {R : Type} (cfg : Config) (env : Env R)
    (s : GenState R) (hok : resolvesOk cfg env)
    (hc : canCompute s.currentAngle) :
    produced (compute cfg env s) = true := by
  rw [compute_active_eq cfg env s hok hc]
  rfl

theorem produced_false {R : Type} (cfg : Config) (env : Env R)
    (s : GenState R) (hok : resolvesOk cfg env)
    (hnc : ¬ canCompute s.currentAngle) :
    produced (compute cfg env s) = false := by
  rw [compute_exhausted_eq cfg env s hok hnc]
  rfl

theorem compute_fst_angle_active {R : Type} (cfg : Config) (env : Env R)
    (s : GenState R) (hok : resolvesOk cfg env)
    (hc : canCompute s.currentAngle) :
    (compute cfg env s).1.currentAngle = s.currentAngle + cfg.angleDelta := by
  rw [compute_active_eq cfg env s hok hc]

theorem effFrameId_empty (cfg : Config) (h : cfg.tfFrameId = "")
    (linkName : String) : effFrameId cfg linkName = linkName := by
  unfold effFrameId
  rw [if_pos h]

theorem resolvesOk_of {R : Type} (cfg : Config) (env : Env R)
    (h1 : env.hasEndEffector cfg.eef = true)
    (hf : effFrameId cfg (env.eefParentLink cfg.eef) = env.eefParentLink cfg.eef)
    (ho : env.resolve cfg.object ≠ 1) : resolvesOk cfg env :=
  ⟨h1, fun hne => absurd hf hne, ho⟩

/-- Witness vector: unit translation along x. -/
def exVec : Fin 3 → ℝ := ![1, 0, 0]

theorem transl_exVec_ne_one : transl exVec ≠ 1 := by
  rw [Ne, transl_eq_one_iff]
  intro h
  have h0 := congrFun h 0
  simp [exVec] at h0

/-- A benign environment: everything resolves to a unit x-translation and
the robot-state stubs are inert. -/
def envGood : Env Unit :=
  ⟨fun _ => true, fun _ => "link", fun _ => transl exVec,
   fun r _ _ => r, fun r _ _ => r, fun _ => []⟩

/-- An environment whose frame resolution always fails with the identity
sentinel. -/
def envBad : Env Unit :=
  ⟨fun _ => true, fun _ => "link", fun _ => 1,
   fun r _ _ => r, fun r _ _ => r, fun _ => []⟩

/-- An environment over a boolean scratch robot state that records whether
the named-pose preset was ever applied. -/
def envC8 : Env Bool :=
  ⟨fun _ => true, fun _ => "link", fun _ => transl exVec,
   fun _ _ _ => true, fun r _ _ => r, fun _ => []⟩

/-- Identity offset, `angle_delta = 1`. -/
def cfgId : Config := ⟨"hand", "", "obj", "", 1, 1⟩

/-- Identity offset, `angle_delta = π`. -/
noncomputable def cfgPi : Config := ⟨"hand", "", "obj", "", 1, Real.pi⟩

/-- Identity offset, `angle_delta = 2π`. -/
noncomputable def cfgTwoPi : Config := ⟨"hand", "", "obj", "", 1, 2 * Real.pi⟩

/-- Identity offset, `angle_delta = 0`. -/
def cfgZero : Config := ⟨"hand", "", "obj", "", 1, 0⟩

/-- Offset declared in a frame `F` distinct from the parent link. -/
def cfgC5 : Config := ⟨"hand", "", "obj", "F", transl exVec, 1⟩

/-- Configuration with a named end-effector pose preset. -/
def cfgC8 : Config := ⟨"hand", "open", "obj", "", 1, 1⟩

theorem resolvesOk_cfgId : resolvesOk cfgId envGood :=
  resolvesOk_of cfgId envGood rfl (effFrameId_empty cfgId rfl _) transl_exVec_ne_one

theorem resolvesOk_cfgPi : resolvesOk cfgPi envGood :=
  resolvesOk_of cfgPi envGood rfl (effFrameId_empty cfgPi rfl _) transl_exVec_ne_one

theorem resolvesOk_cfgTwoPi : resolvesOk cfgTwoPi envGood :=
  resolvesOk_of cfgTwoPi envGood rfl (effFrameId_empty cfgTwoPi rfl _) transl_exVec_ne_one

theorem resolvesOk_cfgZero : resolvesOk cfgZero envGood :=
  resolvesOk_of cfgZero envGood rfl (effFrameId_empty cfgZero rfl _) transl_exVec_ne_one

theorem resolvesOk_cfgC8 : resolvesOk cfgC8 envC8 :=
  resolvesOk_of cfgC8 envC8 rfl (effFrameId_empty cfgC8 rfl _) transl_exVec_ne_one

theorem not_canCompute_eight : ¬ canCompute (8 : ℝ) :=
  not_canCompute_of_le (by linarith [Real.pi_le_four])

end GenerateGraspPose

namespace GenerateGraspPose

open Affine3d

/-- C1 counterexample: with `angle_delta = 2π` and a fresh, fully
resolvable generator, the claimed count `ceil(4π / angle_delta) = 2` is
wrong: the first `compute` call produces a candidate and the second call
already reports no candidate, so exactly one candidate is producible. -/
theorem c1_counterexample :
    ⌈4 * Real.pi / (2 * Real.pi)⌉₊ = 2 ∧
    produced (compute cfgTwoPi envGood ⟨0, ()⟩) = true ∧
    produced (compute cfgTwoPi envGood (compute cfgTwoPi envGood ⟨0, ()⟩).1) = false := by
  have hok : resolvesOk cfgTwoPi envGood := resolvesOk_cfgTwoPi
  refine ⟨?_, ?_, ?_⟩
  · have hdiv : 4 * Real.pi / (2 * Real.pi) = 2 := by
      rw [mul_comm 4 Real.pi, mul_comm 2 Real.pi, mul_div_mul_left _ _ Real.pi_ne_zero]
      norm_num
    rw [hdiv]
    norm_num
  · exact produced_true cfgTwoPi envGood ⟨0, ()⟩ hok canCompute_zero
  · have hang : (compute cfgTwoPi envGood ⟨0, ()⟩).1.currentAngle =
        (0 : ℝ) + cfgTwoPi.angleDelta :=
      compute_fst_angle_active cfgTwoPi envGood ⟨0, ()⟩ hok canCompute_zero
    apply produced_false cfgTwoPi envGood _ hok
    rw [hang]
    have hδ : cfgTwoPi.angleDelta = 2 * Real.pi := rfl
    rw [hδ, zero_add]
    exact not_canCompute_of_le le_rfl

/-- C1 (amended): for every configured `angle_delta > 0` and a fresh,
fully resolvable generator, the number of candidates producible by
repeated `compute` calls before `canCompute` becomes false is
`ceil(2π / angle_delta)` (not `ceil(4π / angle_delta)`): every one of the
first `ceil(2π/δ)` calls produces a candidate and the next call produces
none; the angle starts at 0, increments by `angle_delta` on each produced
candidate, and generation stops once the angle reaches `2π`. -/
theorem c1_candidate_count {R : Type} (cfg : Config) (env : Env R) (r : R)
    (hok : resolvesOk cfg env) (hd : 0 < cfg.angleDelta) :
    (∀ k : ℕ, k < ⌈2 * Real.pi / cfg.angleDelta⌉₊ →
      produced (compute cfg env (computeSteps cfg env k ⟨0, r⟩)) = true) ∧
    produced (compute cfg env
      (computeSteps cfg env ⌈2 * Real.pi / cfg.angleDelta⌉₊ ⟨0, r⟩)) = false := by
  have key : ∀ j : ℕ, j < ⌈2 * Real.pi / cfg.angleDelta⌉₊ →
      canCompute ((j : ℝ) * cfg.angleDelta) := by
    intro j hj
    have hlt : (j : ℝ) < 2 * Real.pi / cfg.angleDelta := Nat.lt_ceil.mp hj
    have hmul : (j : ℝ) * cfg.angleDelta < 2 * Real.pi := (lt_div_iff₀ hd).mp hlt
    exact canCompute_of_nonneg_lt (mul_nonneg (Nat.cast_nonneg j) hd.le) hmul
  constructor
  · intro k hk
    have hang := computeSteps_angle cfg env r hok k (fun j hj => key j (hj.trans hk))
    apply produced_true cfg env _ hok
    rw [hang]
    exact key k hk
  · have hang := computeSteps_angle cfg env r hok _ key
    apply produced_false cfg env _ hok
    rw [hang]
    apply not_canCompute_of_le
    have h1 : 2 * Real.pi / cfg.angleDelta ≤
        ((⌈2 * Real.pi / cfg.angleDelta⌉₊ : ℕ) : ℝ) := Nat.le_ceil _
    have h2 := mul_le_mul_of_nonneg_right h1 hd.le
    rwa [div_mul_cancel₀ _ (ne_of_gt hd)] at h2

theorem c1_candidate_count_witness :
    resolvesOk cfgPi envGood ∧ 0 < cfgPi.angleDelta ∧
    produced (compute cfgPi envGood
      (computeSteps cfgPi envGood ⌈2 * Real.pi / cfgPi.angleDelta⌉₊ ⟨0, ()⟩)) = false :=
  ⟨resolvesOk_cfgPi, Real.pi_pos,
   (c1_candidate_count cfgPi envGood () resolvesOk_cfgPi Real.pi_pos).2⟩

/-- C2: `canCompute` holds iff `-2π < current_angle < 2π`; equivalently it
fails exactly when `current_angle ≤ -2π` or `current_angle ≥ 2π`, and it
holds at `current_angle = 0`.  In the embedding `canCompute` is a pure
function of the angle alone, so repeated calls without an intervening
`compute` trivially return the same result and change no state. -/
theorem c2_canCompute_iff :
    (∀ a : ℝ, canCompute a ↔ (-(2 * Real.pi) < a ∧ a < 2 * Real.pi)) ∧
    (∀ a : ℝ, ¬ canCompute a ↔ (a ≤ -(2 * Real.pi) ∨ 2 * Real.pi ≤ a)) ∧
    canCompute 0 := by
  refine ⟨?_, ?_, canCompute_zero⟩
  · intro a
    unfold canCompute
    constructor
    · rintro ⟨h1, h2⟩
      exact ⟨by linarith, h1⟩
    · rintro ⟨h1, h2⟩
      exact ⟨h2, by linarith⟩
  · intro a
    unfold canCompute
    constructor
    · intro h
      by_contra hcon
      push_neg at hcon
      exact h ⟨hcon.2, by linarith [hcon.1]⟩
    · rintro (h | h) ⟨h1, h2⟩ <;> linarith

/-- C3: whenever `canCompute` holds and every resolution succeeds, one
`compute` call emits exactly one (interface-state, trajectory) pair,
advances `current_angle` by exactly one `angle_delta`, and returns true. -/
theorem c3_compute_single_emission {R : Type} (cfg : Config) (env : Env R)
    (s : GenState R) (hok : resolvesOk cfg env)
    (hc : canCompute s.currentAngle) :
    compute cfg env s =
      (⟨s.currentAngle + cfg.angleDelta,
        env.updateWithLinkAt (rsAfterPreset cfg env s.robotState)
          (env.eefParentLink cfg.eef)
          (env.resolve cfg.object * rotZ s.currentAngle * graspToLink cfg env)⟩,
       Except.ok (true, [emissionOf cfg env s])) :=
  compute_active_eq cfg env s hok hc

theorem c3_compute_single_emission_witness :
    resolvesOk cfgId envGood ∧
    canCompute ((⟨0, ()⟩ : GenState Unit)).currentAngle ∧
    (compute cfgId envGood ⟨0, ()⟩).2 =
      Except.ok (true, [emissionOf cfgId envGood ⟨0, ()⟩]) := by
  refine ⟨resolvesOk_cfgId, canCompute_zero, ?_⟩
  rw [c3_compute_single_emission cfgId envGood ⟨0, ()⟩ resolvesOk_cfgId canCompute_zero]

/-- C4: on the successful path the emitted target pose is computed from
the pre-increment angle, `object_pose * Rot_z(a) * grasp2link`, while the
trajectory name is the post-increment angle `a + angle_delta`; in
particular the first call of a fresh generator with identity offset emits
the object's pose itself. -/
theorem c4_pose_pre_name_post {R : Type} (cfg : Config) (env : Env R)
    (s : GenState R) (hok : resolvesOk cfg env)
    (hc : canCompute s.currentAngle) :
    (compute cfg env s).2 = Except.ok (true, [emissionOf cfg env s]) ∧
    (emissionOf cfg env s).state.targetPose.pose =
      env.resolve cfg.object * rotZ s.currentAngle * graspToLink cfg env ∧
    (emissionOf cfg env s).traj.name = s.currentAngle + cfg.angleDelta ∧
    (s.currentAngle = 0 → cfg.toolToGrasp = 1 →
      effFrameId cfg (env.eefParentLink cfg.eef) = env.eefParentLink cfg.eef →
      (emissionOf cfg env s).state.targetPose.pose = env.resolve cfg.object) := by
  refine ⟨?_, rfl, rfl, ?_⟩
  · rw [compute_active_eq cfg env s hok hc]
  · intro h0 hT hf
    show env.resolve cfg.object * rotZ s.currentAngle * graspToLink cfg env =
      env.resolve cfg.object
    rw [h0, rotZ_zero, mul_one]
    unfold graspToLink
    rw [if_neg (not_not_intro hf), hT, inv_one, mul_one]

theorem c4_pose_pre_name_post_witness :
    resolvesOk cfgId envGood ∧
    (emissionOf cfgId envGood ⟨0, ()⟩).state.targetPose.pose =
      envGood.resolve cfgId.object :=
  ⟨resolvesOk_cfgId,
   (c4_pose_pre_name_post cfgId envGood ⟨0, ()⟩ resolvesOk_cfgId
      canCompute_zero).2.2.2 rfl rfl (effFrameId_empty cfgId rfl _)⟩

end GenerateGraspPose

namespace GenerateGraspPose

open Affine3d

theorem effFrameId_cfgC5 : effFrameId cfgC5 "link" = "F" := by
  unfold effFrameId
  rfl

theorem effFrameId_cfgC5_ne : effFrameId cfgC5 "link" ≠ "link" := by
  rw [effFrameId_cfgC5]
  decide

/-- C5 counterexample: with the offset declared in frame `F ≠ link` (both
`F` and `link` resolving to the same unit x-translation, the offset also a
unit x-translation), the grasp→link transform the code computes is the
translation by `-x`, whereas the claimed value
`inverse(link_pose) ∘ F_pose ∘ T` is the translation by `+x`; the two
differ. -/
theorem c5_counterexample :
    effFrameId cfgC5 (envGood.eefParentLink cfgC5.eef) ≠
      envGood.eefParentLink cfgC5.eef ∧
    resolveGrasp2Link cfgC5 envGood (envGood.eefParentLink cfgC5.eef) =
      Except.ok (graspToLink cfgC5 envGood) ∧
    graspToLink cfgC5 envGood ≠
      (envGood.resolve (envGood.eefParentLink cfgC5.eef))⁻¹ *
        envGood.resolve (effFrameId cfgC5 (envGood.eefParentLink cfgC5.eef)) *
        cfgC5.toolToGrasp := by
  have hne : effFrameId cfgC5 (envGood.eefParentLink cfgC5.eef) ≠
      envGood.eefParentLink cfgC5.eef := effFrameId_cfgC5_ne
  refine ⟨hne, resolveGrasp2Link_ok cfgC5 envGood
    (fun _ => ⟨transl_exVec_ne_one, transl_exVec_ne_one⟩), ?_⟩
  have hL : graspToLink cfgC5 envGood = transl (-exVec) := by
    unfold graspToLink
    rw [if_pos hne]
    show ((transl exVec)⁻¹ * transl exVec * transl exVec)⁻¹ = _
    simp
  have hR : (envGood.resolve (envGood.eefParentLink cfgC5.eef))⁻¹ *
      envGood.resolve (effFrameId cfgC5 (envGood.eefParentLink cfgC5.eef)) *
      cfgC5.toolToGrasp = transl exVec := by
    show (transl exVec)⁻¹ * transl exVec * transl exVec = _
    simp
  rw [hL, hR, Ne, transl_eq_transl_iff]
  intro h
  have h0 := congrFun h 0
  simp [exVec] at h0
  norm_num at h0

/-- C5 (amended): when the offset is declared in a frame `F` different
from the end-effector parent-link frame and both frames resolve, the code
computes `grasp→link = inverse(inverse(link_pose) ∘ F_pose ∘ T)` (the
inverse of the claimed expression), and substituting `F_pose = link_pose`
(with an invertible link pose) reduces it exactly to the direct case
`grasp→link = inverse(T)`. -/
theorem c5_reexpression {R : Type} (cfg : Config) (env : Env R)
    (hne : effFrameId cfg (env.eefParentLink cfg.eef) ≠ env.eefParentLink cfg.eef)
    (hL : env.resolve (env.eefParentLink cfg.eef) ≠ 1)
    (hF : env.resolve (effFrameId cfg (env.eefParentLink cfg.eef)) ≠ 1) :
    resolveGrasp2Link cfg env (env.eefParentLink cfg.eef) =
      Except.ok (((env.resolve (env.eefParentLink cfg.eef))⁻¹ *
        env.resolve (effFrameId cfg (env.eefParentLink cfg.eef)) *
        cfg.toolToGrasp)⁻¹) ∧
    (env.resolve (effFrameId cfg (env.eefParentLink cfg.eef)) =
        env.resolve (env.eefParentLink cfg.eef) →
      IsUnit (env.resolve (env.eefParentLink cfg.eef)).lin.det →
      graspToLink cfg env = cfg.toolToGrasp⁻¹) := by
  constructor
  · unfold resolveGrasp2Link
    rw [if_pos hne, if_neg hL, if_neg hF]
  · intro hFL hdet
    unfold graspToLink
    rw [if_pos hne, hFL, Affine3d.inv_mul_self hdet, one_mul]

theorem c5_reexpression_witness :
    effFrameId cfgC5 (envGood.eefParentLink cfgC5.eef) ≠
      envGood.eefParentLink cfgC5.eef ∧
    graspToLink cfgC5 envGood = cfgC5.toolToGrasp⁻¹ := by
  have hdet : IsUnit (envGood.resolve (envGood.eefParentLink cfgC5.eef)).lin.det := by
    show IsUnit (transl exVec).lin.det
    simp
  exact ⟨effFrameId_cfgC5_ne,
    (c5_reexpression cfgC5 envGood effFrameId_cfgC5_ne transl_exVec_ne_one
      transl_exVec_ne_one).2 rfl hdet⟩

/-- C6: when the offset transform `T` is expressed directly in the
end-effector parent-link frame (explicitly or by the empty-frame default,
i.e. the effective frame equals the link frame), `compute` derives
`grasp→tool = inverse(T)` and `grasp→link = inverse(T)`, and (for `T` with
invertible linear part, as for every rigid transform) `grasp→tool ∘ T` is
the identity transform. -/
theorem c6_direct_inverse {R : Type} (cfg : Config) (env : Env R)
    (hf : effFrameId cfg (env.eefParentLink cfg.eef) = env.eefParentLink cfg.eef)
    (hdet : IsUnit cfg.toolToGrasp.lin.det) :
    grasp2tool cfg = cfg.toolToGrasp⁻¹ ∧
    graspToLink cfg env = cfg.toolToGrasp⁻¹ ∧
    grasp2tool cfg * cfg.toolToGrasp = 1 := by
  refine ⟨rfl, ?_, ?_⟩
  · unfold graspToLink
    rw [if_neg (not_not_intro hf)]
  · exact Affine3d.inv_mul_self hdet

theorem c6_direct_inverse_witness :
    IsUnit cfgId.toolToGrasp.lin.det ∧
    grasp2tool cfgId * cfgId.toolToGrasp = 1 := by
  have hdet : IsUnit cfgId.toolToGrasp.lin.det := by
    show IsUnit (1 : Affine3d).lin.det
    simp
  exact ⟨hdet, (c6_direct_inverse cfgId envGood
    (effFrameId_empty cfgId rfl _) hdet).2.2⟩

/-- C7: if a resolution `compute` performs fails (the resolver returns the
identity sentinel for the object, or for the parent link or declared frame
on the re-expression branch), `compute` raises an error, emits no
candidate, and leaves `current_angle` unchanged. -/
theorem c7_resolution_failure {R : Type} (cfg : Config) (env : Env R)
    (s : GenState R) (heef : env.hasEndEffector cfg.eef = true)
    (hfail : resolveFails cfg env) :
    isError (compute cfg env s) = true ∧
    (compute cfg env s).1.currentAngle = s.currentAngle ∧
    emitted (compute cfg env s) = [] := by
  rcases hfail with ⟨hne, hLF⟩ | hobj
  · have herr : ∃ e, resolveGrasp2Link cfg env (env.eefParentLink cfg.eef) =
        Except.error e := by
      unfold resolveGrasp2Link
      rw [if_pos hne]
      by_cases hL : env.resolve (env.eefParentLink cfg.eef) = 1
      · rw [if_pos hL]
        exact ⟨_, rfl⟩
      · rw [if_neg hL]
        rcases hLF with h | h
        · exact absurd h hL
        · rw [if_pos h]
          exact ⟨_, rfl⟩
    obtain ⟨e, he⟩ := herr
    unfold compute
    rw [if_pos heef]
    simp only [he]
    refine ⟨?_, ?_, ?_⟩ <;> simp [isError, emitted]
  · rcases hres : resolveGrasp2Link cfg env (env.eefParentLink cfg.eef) with e | g
    · unfold compute
      rw [if_pos heef]
      simp only [hres]
      refine ⟨?_, ?_, ?_⟩ <;> simp [isError, emitted]
    · unfold compute
      rw [if_pos heef]
      simp only [hres]
      rw [if_pos hobj]
      refine ⟨?_, ?_, ?_⟩ <;> simp [isError, emitted]

theorem c7_resolution_failure_witness :
    resolveFails cfgId envBad ∧
    isError (compute cfgId envBad ⟨0, ()⟩) = true ∧
    (compute cfgId envBad ⟨0, ()⟩).1.currentAngle =
      ((⟨0, ()⟩ : GenState Unit)).currentAngle :=
  ⟨Or.inr rfl,
   (c7_resolution_failure cfgId envBad ⟨0, ()⟩ rfl (Or.inr rfl)).1,
   (c7_resolution_failure cfgId envBad ⟨0, ()⟩ rfl (Or.inr rfl)).2.1⟩

end GenerateGraspPose

namespace GenerateGraspPose

open Affine3d

/-- C8 counterexample: a `compute` call on an exhausted generator
(`current_angle = 8 ≥ 2π`) with a configured named end-effector pose does
return "no candidate", but it is not side-effect free: the scratch robot
state is still mutated by the named-pose preset (here it flips from
`false` to `true`). -/
theorem c8_counterexample :
    ¬ canCompute ((⟨8, false⟩ : GenState Bool)).currentAngle ∧
    produced (compute cfgC8 envC8 ⟨8, false⟩) = false ∧
    (compute cfgC8 envC8 ⟨8, false⟩).1.robotState ≠
      ((⟨8, false⟩ : GenState Bool)).robotState := by
  have hnc : ¬ canCompute ((⟨8, false⟩ : GenState Bool)).currentAngle :=
    not_canCompute_eight
  refine ⟨hnc, produced_false cfgC8 envC8 _ resolvesOk_cfgC8 hnc, ?_⟩
  rw [compute_exhausted_eq cfgC8 envC8 _ resolvesOk_cfgC8 hnc]
  show rsAfterPreset cfgC8 envC8 false ≠ false
  unfold rsAfterPreset
  simp [cfgC8, envC8]

/-- C8 (amended): for every state with `canCompute` false and all
resolutions succeeding, `compute` returns false, emits nothing and leaves
`current_angle` unchanged; the only state it may still touch is the
scratch robot state, which receives the named-pose preset — when no named
pose is configured the robot state too is unchanged. -/
theorem c8_exhausted_no_emit {R : Type} (cfg : Config) (env : Env R)
    (s : GenState R) (hok : resolvesOk cfg env)
    (hnc : ¬ canCompute s.currentAngle) :
    compute cfg env s =
      (⟨s.currentAngle, rsAfterPreset cfg env s.robotState⟩,
       Except.ok (false, [])) ∧
    (cfg.eefNamedPose = "" → rsAfterPreset cfg env s.robotState = s.robotState) := by
  refine ⟨compute_exhausted_eq cfg env s hok hnc, fun h => ?_⟩
  unfold rsAfterPreset
  rw [if_pos h]

theorem c8_exhausted_no_emit_witness :
    ¬ canCompute ((⟨8, ()⟩ : GenState Unit)).currentAngle ∧
    compute cfgId envGood ⟨8, ()⟩ = (⟨8, ()⟩, Except.ok (false, [])) := by
  have hnc : ¬ canCompute ((⟨8, ()⟩ : GenState Unit)).currentAngle :=
    not_canCompute_eight
  refine ⟨hnc, ?_⟩
  rw [(c8_exhausted_no_emit cfgId envGood ⟨8, ()⟩ resolvesOk_cfgId hnc).1]

/-- C9: the Exhausted state is terminal: from any state with `canCompute`
false, any number of further `compute` calls leaves `current_angle`
unchanged and `canCompute` false — regardless of whether resolutions
succeed or throw; and a `compute` call can only report a produced
candidate from a state in which `canCompute` held (Active). -/
theorem c9_exhausted_terminal {R : Type} (cfg : Config) (env : Env R)
    (s : GenState R) (hnc : ¬ canCompute s.currentAngle) :
    (∀ n : ℕ, (computeSteps cfg env n s).currentAngle = s.currentAngle ∧
      ¬ canCompute (computeSteps cfg env n s).currentAngle) ∧
    (∀ t : GenState R, produced (compute cfg env t) = true →
      canCompute t.currentAngle) := by
  have hstep : ∀ t : GenState R, ¬ canCompute t.currentAngle →
      (compute cfg env t).1.currentAngle = t.currentAngle := by
    intro t ht
    rcases compute_cases cfg env t with ⟨hc, _, _⟩ | ⟨ha, _, _⟩
    · exact absurd hc ht
    · exact ha
  constructor
  · intro n
    induction n with
    | zero => exact ⟨rfl, hnc⟩
    | succ m ih =>
      have h1 : (computeSteps cfg env (m + 1) s).currentAngle = s.currentAngle := by
        show (compute cfg env (computeSteps cfg env m s)).1.currentAngle = _
        have hm : ¬ canCompute (computeSteps cfg env m s).currentAngle := ih.2
        rw [hstep _ hm, ih.1]
      refine ⟨h1, ?_⟩
      rw [h1]
      exact hnc
  · intro t hp
    rcases compute_cases cfg env t with ⟨hc, _, _⟩ | ⟨_, hp', _⟩
    · exact hc
    · rw [hp] at hp'
      exact absurd hp' (by simp)

theorem c9_exhausted_terminal_witness :
    ¬ canCompute ((⟨8, ()⟩ : GenState Unit)).currentAngle ∧
    (computeSteps cfgId envGood 3 ⟨8, ()⟩).currentAngle = (8 : ℝ) :=
  ⟨not_canCompute_eight,
   ((c9_exhausted_terminal cfgId envGood ⟨8, ()⟩ not_canCompute_eight).1 3).1⟩

/-- C10: with `angle_delta = 0` and a fully resolvable environment, a
fresh generator never exhausts: after any number of `compute` calls the
angle is still 0, `canCompute` still holds, and the next call still
produces one candidate whose target pose is the constant
`object_pose * Rot_z(0) * grasp2link`, identical on every call. -/
theorem c10_zero_delta {R : Type} (cfg : Config) (env : Env R) (r : R)
    (hok : resolvesOk cfg env) (hd : cfg.angleDelta = 0) :
    ∀ n : ℕ,
      (computeSteps cfg env n ⟨0, r⟩).currentAngle = 0 ∧
      canCompute (computeSteps cfg env n ⟨0, r⟩).currentAngle ∧
      produced (compute cfg env (computeSteps cfg env n ⟨0, r⟩)) = true ∧
      emitted (compute cfg env (computeSteps cfg env n ⟨0, r⟩)) =
        [emissionOf cfg env (computeSteps cfg env n ⟨0, r⟩)] ∧
      (emissionOf cfg env (computeSteps cfg env n ⟨0, r⟩)).state.targetPose.pose =
        env.resolve cfg.object * rotZ 0 * graspToLink cfg env := by
  have hang : ∀ n : ℕ, (computeSteps cfg env n ⟨0, r⟩).currentAngle = 0 := by
    intro n
    induction n with
    | zero => rfl
    | succ m ih =>
      have hc : canCompute (computeSteps cfg env m ⟨0, r⟩).currentAngle := by
        rw [ih]
        exact canCompute_zero
      show (compute cfg env (computeSteps cfg env m ⟨0, r⟩)).1.currentAngle = 0
      rw [compute_fst_angle_active cfg env _ hok hc, ih, hd, add_zero]
  intro n
  have hc : canCompute (computeSteps cfg env n ⟨0, r⟩).currentAngle := by
    rw [hang n]
    exact canCompute_zero
  refine ⟨hang n, hc, produced_true cfg env _ hok hc, ?_, ?_⟩
  · rw [compute_active_eq cfg env _ hok hc]
    rfl
  · show env.resolve cfg.object * rotZ (computeSteps cfg env n ⟨0, r⟩).currentAngle *
      graspToLink cfg env = _
    rw [hang n]

theorem c10_zero_delta_witness :
    resolvesOk cfgZero envGood ∧ cfgZero.angleDelta = 0 ∧
    produced (compute cfgZero envGood
      (computeSteps cfgZero envGood 5 ⟨0, ()⟩)) = true :=
  ⟨resolvesOk_cfgZero, rfl,
   (c10_zero_delta cfgZero envGood () resolvesOk_cfgZero rfl 5).2.2.1⟩

end GenerateGraspPose
